import Mathlib

/-!
Verification development for the korean-api-toolkit repository.

The definitions below are a shallow embedding of the Python sources
`src/kis_api.py`, `src/kakao_api.py` and `src/tmap_api.py`:

* timestamps (`time.time()` values, in seconds) are modelled as rationals;
* Python dictionaries received from the providers are modelled as structures
  whose fields are `Option String` (a missing key is `none`);
* fallible Python code (functions that may raise) is modelled with
  `Option`/`Except`; mutable attributes of a client instance are modelled by
  explicit state passing;
* the blocking `time.sleep` is modelled by advancing the clock by exactly the
  requested amount;
* the recursive retry of `_make_request` consumes a finite oracle listing the
  successive transport outcomes, one entry per attempted HTTP call.
-/

/-! ### Numeric string coercion, as performed by Python `int(...)`/`float(...)` -/

/-- Value of a list of decimal digit characters. -/
def digitsToNat (ds : List Char) : Nat :=
  ds.foldl (fun a c => a * 10 + (c.toNat - 48)) 0

/-- Sign and digit groups of a decimal literal. -/
structure DecParts where
  neg : Bool
  ipart : List Char
  fpart : List Char
deriving DecidableEq, Repr

/-- Parse a string of the shape accepted by Python `float` restricted to plain
decimal literals: optional sign, integer digits, optional fraction. Returns
`none` on any other input (Python raises `ValueError`). -/
def parseDec? (s : String) : Option DecParts :=
  let cs := s.toList
  let sgn : Bool × List Char :=
    match cs with
    | '-' :: rest => (true, rest)
    | '+' :: rest => (false, rest)
    | _ => (false, cs)
  let ip := sgn.2.takeWhile Char.isDigit
  let r1 := sgn.2.dropWhile Char.isDigit
  match r1 with
  | '.' :: r2 =>
      let fp := r2.takeWhile Char.isDigit
      let r3 := r2.dropWhile Char.isDigit
      if r3 = [] ∧ (ip ≠ [] ∨ fp ≠ []) then some ⟨sgn.1, ip, fp⟩ else none
  | [] => if ip ≠ [] then some ⟨sgn.1, ip, []⟩ else none
  | _ => none

/-- Python `int(s)` on a string: optional sign followed by digits only;
anything else raises `ValueError` (modelled as `none`). -/
def pyInt? (s : String) : Option Int :=
  let cs := s.toList
  let sgn : Bool × List Char :=
    match cs with
    | '-' :: rest => (true, rest)
    | '+' :: rest => (false, rest)
    | _ => (false, cs)
  if sgn.2 ≠ [] ∧ sgn.2.all Char.isDigit then
    some (if sgn.1 then -(digitsToNat sgn.2 : Int) else (digitsToNat sgn.2 : Int))
  else none

/-- Python `int(float(s))`: parse a decimal literal and truncate toward zero
(the fraction digits are discarded). -/
def pyFloatTruncInt? (s : String) : Option Int :=
  (parseDec? s).map fun d =>
    if d.neg then -(digitsToNat d.ipart : Int) else (digitsToNat d.ipart : Int)

/-- Python `float(s)` as an exact rational. -/
def pyFloat? (s : String) : Option ℚ :=
  (parseDec? s).map fun d =>
    let m : ℚ := (digitsToNat d.ipart : ℚ) + (digitsToNat d.fpart : ℚ) / (10 : ℚ) ^ d.fpart.length
    if d.neg then -m else m

/-- Coercion `int(data.get(key, 0))` used by `KISAPI.stock_price`: a missing
key yields `int(0) = 0`; a present string is parsed by Python `int`. -/
def coerceIntField (v : Option String) : Option Int :=
  match v with
  | none => some 0
  | some s => pyInt? s

/-- Coercion `float(data.get(key, 0))` used by the quote normalizers. -/
def coerceFloatField (v : Option String) : Option ℚ :=
  match v with
  | none => some 0
  | some s => pyFloat? s

/-- Coercion `int(float(item.get(key, 0)) if item.get(key) else 0)` used by
`KISAPI.stock_chart`: a missing or empty (falsy) value yields 0. -/
def coerceChartField (v : Option String) : Option Int :=
  match v with
  | none => some 0
  | some s => if s = "" then some 0 else pyFloatTruncInt? s

/-! ### Rate limiter (`KISAPI._rate_limit`) -/

/-- Mutable rate-limiting attributes of a `KISAPI` instance:
`self.request_count` and `self.last_request_time`. -/
structure RateState where
  request_count : Nat
  last_request_time : ℚ
deriving DecidableEq, Repr

/-- Result of one `_rate_limit()` call: the updated state, whether the call
slept, and the wall-clock time at which the call returned (the dispatch
time of the guarded request). -/
structure RateStep where
  state : RateState
  slept : Bool
  dispatch : ℚ
deriving DecidableEq, Repr

/-- Constant `self.max_requests_per_second` set in `KISAPI.__init__`. -/
def max_requests_per_second : Nat := 15

/-- One call of `KISAPI._rate_limit` entered at wall-clock time `now`.
Mirrors the source: reset the counter when a full second elapsed; when the
counter has reached the ceiling, sleep for the remainder of the window, reset
the counter and the window start; finally increment the counter. `time.sleep`
is modelled as advancing the clock by exactly the requested amount, so the
`time.time()` reading taken after the sleep is `now + sleepT`. -/
def rateLimit (maxReq : Nat) (s : RateState) (now : ℚ) : RateStep :=
  let s1 := if now - s.last_request_time ≥ 1 then RateState.mk 0 now else s
  if s1.request_count ≥ maxReq then
    let sleepT := 1 - (now - s1.last_request_time)
    if sleepT > 0 then
      ⟨⟨1, now + sleepT⟩, true, now + sleepT⟩
    else
      ⟨⟨s1.request_count + 1, s1.last_request_time⟩, false, now⟩
  else
    ⟨⟨s1.request_count + 1, s1.last_request_time⟩, false, now⟩

/-- Run a sequence of `_rate_limit` calls; `times` lists the wall-clock
instant at which each successive call is entered. Returns the final state and,
for every call, the pair (dispatch time, whether the call slept). -/
def runRateTrace (maxReq : Nat) : RateState → List ℚ → RateState × List (ℚ × Bool)
  | s, [] => (s, [])
  | s, t :: ts =>
    let st := rateLimit maxReq s t
    let rest := runRateTrace maxReq st.state ts
    (rest.1, (st.dispatch, st.slept) :: rest.2)

/-! ### Request dispatcher retry (`KISAPI._make_request`) -/

/-- Outcome of one attempted HTTP call inside `_make_request`: either a parsed
JSON body, or a `RequestException` whose attached response carried the given
HTTP status code. -/
inductive HttpOutcome (α : Type) where
  | success (payload : α)
  | failure (status : Nat)
deriving DecidableEq, Repr

/-- Errors with which the modelled `_make_request` terminates. `network s`
is the re-raised `RequestException` (non-429 status `s`); `exhausted` marks
the artificial end of the outcome oracle — the source recursion would keep
retrying for as long as the provider keeps answering 429. -/
inductive DispatchError where
  | network (status : Nat)
  | exhausted
deriving DecidableEq, Repr

/-- The retry loop of `KISAPI._make_request`, driven by the oracle of
transport outcomes (one entry per attempted call). On a 429 failure the
source sleeps 2 seconds and recursively re-enters `_make_request`; the first
component accumulates the total slept delay. Any other failure re-raises
immediately. -/
def makeRequest {α : Type} : List (HttpOutcome α) → Nat × Except DispatchError α
  | [] => (0, Except.error DispatchError.exhausted)
  | HttpOutcome.success p :: _ => (0, Except.ok p)
  | HttpOutcome.failure s :: rest =>
    if s = 429 then
      let r := makeRequest rest
      (r.1 + 2, r.2)
    else (0, Except.error (DispatchError.network s))

/-! ### Token manager (`KISAPI._get_access_token`) -/

/-- Outcome of one POST to `/oauth2/tokenP`: a transport error (exception from
`requests.post`/`raise_for_status`), or a 2xx body whose optional
`access_token` field is `tok`. -/
inductive AuthOutcome where
  | transportError
  | response (tok : Option String)
deriving DecidableEq, Repr

/-- Python truthiness of `self.access_token` (`None` and `""` are falsy). -/
def isTruthy : Option String → Bool
  | none => false
  | some s => !(s == "")

/-- One call of `_get_access_token` on cached state `st`, with `o` the outcome
the token endpoint would produce if contacted. Returns the new cached state,
whether a network call was made, and the call's result (`Except.error` models
a raised exception). Mirrors the source: a truthy cache is returned without
any network call; otherwise the endpoint is called, the (possibly missing)
`access_token` field is stored, and a falsy stored value raises. -/
def tokenStep (st : Option String) (o : AuthOutcome) :
    Option String × Bool × Except Unit String :=
  if isTruthy st then (st, false, Except.ok (st.getD ""))
  else
    match o with
    | AuthOutcome.transportError => (st, true, Except.error ())
    | AuthOutcome.response tok =>
        if isTruthy tok then (tok, true, Except.ok (tok.getD ""))
        else (tok, true, Except.error ())

/-- Run a sequence of `_get_access_token` calls on one client instance.
Returns the final cached state and, per call, (network call made?, result). -/
def tokenTrace : Option String → List AuthOutcome → Option String × List (Bool × Except Unit String)
  | st, [] => (st, [])
  | st, o :: os =>
    let r := tokenStep st o
    let rest := tokenTrace r.1 os
    (rest.1, (r.2.1, r.2.2) :: rest.2)

/-- Number of calls in a trace that performed a network call. -/
def networkCallCount (l : List (Bool × Except Unit String)) : Nat :=
  (l.filter (fun r => r.1)).length

/-- Boolean success of a modelled call result. -/
def isOkResult : Except Unit String → Bool
  | Except.ok _ => true
  | Except.error _ => false

/-- Number of calls in a trace whose network call returned a usable token. -/
def successCallCount (l : List (Bool × Except Unit String)) : Nat :=
  (l.filter (fun r => r.1 && isOkResult r.2)).length

/-! ### Domestic quote (`KISAPI.stock_price`) -/

/-- The `output` object of the domestic quote payload. -/
structure QuoteOutput where
  hts_kor_isnm : Option String
  stck_prpr : Option String
  prdy_vrss : Option String
  prdy_ctrt : Option String
  prdy_vrss_sign : Option String
  acml_vol : Option String
  acml_tr_pbmn : Option String
  stck_hgpr : Option String
  stck_lwpr : Option String
  stck_oprc : Option String
  stck_sdpr : Option String
deriving DecidableEq, Repr

/-- A parsed KIS response envelope for the quote endpoints. -/
structure KisResponse where
  rt_cd : Option String
  msg1 : Option String
  output : QuoteOutput
deriving DecidableEq, Repr

/-- The result dictionary built by `KISAPI.stock_price`. -/
structure QuoteRecord where
  symbol : String
  stock_name : String
  current_price : Int
  change_price : Int
  change_rate : ℚ
  change_sign : Int
  volume : Int
  transaction_amount : Int
  high_price : Int
  low_price : Int
  open_price : Int
  prev_close_price : Int
  market : String
deriving DecidableEq, Repr

/-- Exceptions raised inside `stock_price` after a transport-level success:
the explicit `ValueError` of the `rt_cd` check (carrying the formatted
message), or the `ValueError` raised by a failing `int(...)`/`float(...)`. -/
inductive QuoteFailure where
  | apiError (msg : String)
  | coercionError
deriving DecidableEq, Repr

/-- Field mapping of `stock_price`; `none` when some coercion raises. -/
def normalizeQuote? (symbol market : String) (data : QuoteOutput) : Option QuoteRecord := do
  let cp ← coerceIntField data.stck_prpr
  let chp ← coerceIntField data.prdy_vrss
  let cr ← coerceFloatField data.prdy_ctrt
  let cs ← coerceIntField data.prdy_vrss_sign
  let v ← coerceIntField data.acml_vol
  let ta ← coerceIntField data.acml_tr_pbmn
  let hp ← coerceIntField data.stck_hgpr
  let lp ← coerceIntField data.stck_lwpr
  let op ← coerceIntField data.stck_oprc
  let pc ← coerceIntField data.stck_sdpr
  pure ⟨symbol, data.hts_kor_isnm.getD "", cp, chp, cr, cs, v, ta, hp, lp, op, pc, market⟩

/-- The normalization stage of `stock_price` with the raised coercion
`ValueError` made explicit. -/
def normalizeQuote (symbol market : String) (data : QuoteOutput) : Except QuoteFailure QuoteRecord :=
  match normalizeQuote? symbol market data with
  | some r => Except.ok r
  | none => Except.error QuoteFailure.coercionError

/-- Default provider message used when `msg1` is absent. -/
def unknownErrorMsg : String := "알 수 없는 오류"

/-- The body of `KISAPI.stock_price` after `_make_request` returned `resp`:
classify by the provider `rt_cd` field, raising `ValueError` with the
formatted provider message on failure, else normalize `resp.output`. -/
def stock_price (symbol market : String) (resp : KisResponse) : Except QuoteFailure QuoteRecord :=
  if resp.rt_cd ≠ some "0" then
    Except.error (QuoteFailure.apiError ("API 오류: " ++ resp.msg1.getD unknownErrorMsg))
  else normalizeQuote symbol market resp.output

/-- Errors escaping the full `stock_price` operation: a re-raised transport
error from `_make_request`, or a post-transport failure. -/
inductive OpError where
  | transport (e : DispatchError)
  | quote (e : QuoteFailure)
deriving DecidableEq, Repr

/-- The full `stock_price` operation including the transport stage: the outer
`except` clause of the source logs and re-raises every failure. -/
def stock_priceRun (symbol market : String) (r : Except DispatchError KisResponse) :
    Except OpError QuoteRecord :=
  match r with
  | Except.error e => Except.error (OpError.transport e)
  | Except.ok resp => (stock_price symbol market resp).mapError OpError.quote

/-! ### Foreign quote (`KISAPI.us_stock_price`) -/

/-- The `output` object of the overseas quote payload. -/
structure USQuoteOutput where
  name : Option String
  last : Option String
  diff : Option String
  rate : Option String
  sign : Option String
  tvol : Option String
  high : Option String
  low : Option String
  «open» : Option String
  base : Option String
deriving DecidableEq, Repr

/-- A parsed KIS response envelope for the overseas quote endpoint. -/
structure USResponse where
  rt_cd : Option String
  msg1 : Option String
  output : USQuoteOutput
deriving DecidableEq, Repr

/-- The result dictionary built by `KISAPI.us_stock_price`. -/
structure USQuoteRecord where
  symbol : String
  company_name : String
  current_price : ℚ
  change_price : ℚ
  change_rate : ℚ
  change_sign : String
  volume : Int
  high_price : ℚ
  low_price : ℚ
  open_price : ℚ
  prev_close_price : ℚ
  exchange : String
  exchange_code : String
  currency : String
deriving DecidableEq, Repr

/-- Exchange-name table of `us_stock_price` (`exchange_codes` in the source). -/
def exchange_codes : List (String × String) :=
  [("NASDAQ", "NAS"), ("NYSE", "NYS"), ("AMEX", "AMS")]

/-- Lookup `exchange_codes.get(exchange, "NAS")`. -/
def excdLookup (exchange : String) : String :=
  (exchange_codes.lookup exchange).getD "NAS"

/-- Field mapping of `us_stock_price`; `none` when some coercion raises. -/
def normalizeUSQuote? (symbol exchange : String) (data : USQuoteOutput) : Option USQuoteRecord := do
  let cp ← coerceFloatField data.last
  let chp ← coerceFloatField data.diff
  let cr ← coerceFloatField data.rate
  let v ← coerceIntField data.tvol
  let hp ← coerceFloatField data.high
  let lp ← coerceFloatField data.low
  let op ← coerceFloatField data.«open»
  let pc ← coerceFloatField data.base
  pure ⟨symbol, data.name.getD "", cp, chp, cr, data.sign.getD "", v, hp, lp, op, pc,
        exchange, excdLookup exchange, "USD"⟩

/-- The normalization stage of `us_stock_price`. -/
def normalizeUSQuote (symbol exchange : String) (data : USQuoteOutput) :
    Except QuoteFailure USQuoteRecord :=
  match normalizeUSQuote? symbol exchange data with
  | some r => Except.ok r
  | none => Except.error QuoteFailure.coercionError

/-- The body of `KISAPI.us_stock_price` after `_make_request` returned. -/
def us_stock_price (symbol exchange : String) (resp : USResponse) :
    Except QuoteFailure USQuoteRecord :=
  if resp.rt_cd ≠ some "0" then
    Except.error (QuoteFailure.apiError ("API 오류: " ++ resp.msg1.getD unknownErrorMsg))
  else normalizeUSQuote symbol exchange resp.output

/-! ### Chart range resolution and series normalization (`KISAPI.stock_chart`) -/

/-- The `days_back` table of `stock_chart` with its `.get(period, 50)`
default; `count` is the requested number of candles. -/
def daysBack (period : String) (count : Nat) : Int :=
  match period with
  | "D" => (count : Int) + 10
  | "W" => (count : Int) * 7 + 10
  | "M" => (count : Int) * 30 + 10
  | "Y" => (count : Int) * 365 + 10
  | _ => 50

/-- Default date window of `stock_chart`. Dates are day numbers; `today` is
the day of `datetime.now()`. A missing (falsy) `end_date` becomes `today`; a
missing `start_date` becomes `datetime.now() - timedelta(days=days_back)`,
computed from `today` (not from the effective end date). -/
def resolveRange (today : Int) (period : String) (count : Nat)
    (start_date end_date : Option Int) : Int × Int :=
  let e := match end_date with | none => today | some d => d
  let s := match start_date with | none => today - daysBack period count | some d => d
  (s, e)

/-- One raw entry of the `output2` candle list. -/
structure RawCandle where
  stck_bsop_date : Option String
  stck_oprc : Option String
  stck_hgpr : Option String
  stck_lwpr : Option String
  stck_clpr : Option String
  acml_vol : Option String
  acml_tr_pbmn : Option String
deriving DecidableEq, Repr

/-- One normalized chart point (`data_point` in the source). -/
structure ChartPoint where
  date : String
  «open» : Int
  high : Int
  low : Int
  close : Int
  volume : Int
  amount : Int
deriving DecidableEq, Repr

/-- Build one `data_point` from a raw candle; `none` when any field coercion
raises `ValueError` (the loop then skips the entry with `continue`). -/
def parsePoint (item : RawCandle) : Option ChartPoint := do
  let o ← coerceChartField item.stck_oprc
  let h ← coerceChartField item.stck_hgpr
  let l ← coerceChartField item.stck_lwpr
  let c ← coerceChartField item.stck_clpr
  let v ← coerceChartField item.acml_vol
  let a ← coerceChartField item.acml_tr_pbmn
  pure ⟨item.stck_bsop_date.getD "", o, h, l, c, v, a⟩

/-- The accumulation loop of `stock_chart` over (a prefix of) `output2`:
skip entries whose coercion raises, keep a point only when its date is
non-empty and its close is strictly positive. -/
def chartDataLoop : List RawCandle → List ChartPoint
  | [] => []
  | item :: rest =>
    match parsePoint item with
    | none => chartDataLoop rest
    | some p =>
        if p.date ≠ "" ∧ 0 < p.close then p :: chartDataLoop rest
        else chartDataLoop rest

/-- The `output1` object of the chart payload. -/
structure ChartOutput1 where
  hts_kor_isnm : Option String
deriving DecidableEq, Repr

/-- A parsed KIS response envelope for the chart endpoint. -/
structure ChartResponse where
  rt_cd : Option String
  msg1 : Option String
  output1 : Option ChartOutput1
  output2 : Option (List RawCandle)
deriving DecidableEq, Repr

/-- The result dictionary returned by `KISAPI.stock_chart`; `error` is the
optional embedded `"error"` key. -/
structure ChartResult where
  symbol : String
  stock_name : String
  period : String
  count : Nat
  chart_data : List ChartPoint
  error : Option String
deriving DecidableEq, Repr

/-- The body of `KISAPI.stock_chart` after `_make_request` returned `resp`:
on a provider failure it returns (not raises) a record with an embedded
error message; on an empty candle list it returns an empty success; otherwise
it normalizes the first `count` raw candles. -/
def stock_chart (symbol period : String) (count : Nat) (resp : ChartResponse) : ChartResult :=
  if resp.rt_cd ≠ some "0" then
    ⟨symbol, "", period, 0, [],
      some ("API 오류: " ++ resp.msg1.getD unknownErrorMsg)⟩
  else
    let output1 := resp.output1.getD ⟨none⟩
    let output2 := resp.output2.getD []
    if output2 = [] then
      ⟨symbol, output1.hts_kor_isnm.getD "", period, 0, [], none⟩
    else
      let cd := chartDataLoop (output2.take count)
      ⟨symbol, output1.hts_kor_isnm.getD "", period, cd.length, cd, none⟩

/-- The full `stock_chart` operation including the transport stage: the outer
`except` clause returns a record embedding the stringified exception. -/
def stock_chartRun (symbol period : String) (count : Nat)
    (r : Except String ChartResponse) : ChartResult :=
  match r with
  | Except.error e => ⟨symbol, "", period, 0, [], some e⟩
  | Except.ok resp => stock_chart symbol period count resp

/-! ### Category table (`KakaoAPI.category_search`) -/

/-- The `category_names` table of `category_search`. -/
def category_names : List (String × String) :=
  [("MT1", "대형마트"), ("CS2", "편의점"), ("PS3", "어린이집"),
   ("SC4", "학교"), ("AC5", "학원"), ("PK6", "주차장"),
   ("OL7", "주유소"), ("SW8", "지하철역"), ("BK9", "은행"),
   ("CT1", "문화시설"), ("AG2", "중개업소"), ("PO3", "공공기관"),
   ("AT4", "관광명소"), ("AD5", "숙박"), ("FD6", "음식점"),
   ("CE7", "카페"), ("HP8", "병원"), ("PM9", "약국")]

/-- Lookup `category_names.get(category, category)`. -/
def categoryNameLookup (category : String) : String :=
  (category_names.lookup category).getD category

/-! ### Coordinate conversion (`TmapAPI.coord_convert`) -/

/-- The `coordinate` object of the conversion payload. -/
structure ConvCoord where
  lat : Option ℚ
  lon : Option ℚ
deriving DecidableEq, Repr

/-- A parsed Tmap response for `/tmap/geo/coordconvert`. -/
structure ConvResponse where
  coordinate : Option ConvCoord
deriving DecidableEq, Repr

/-- The result dictionary built by `coord_convert`. -/
structure ConvResult where
  lat : Option ℚ
  lon : Option ℚ
  from_coord : String
  to_coord : String
deriving DecidableEq, Repr

/-- The body of `TmapAPI.coord_convert`: every exception raised by the
transport (modelled as `Except.error`) is caught and turned into `None`;
a transport success always yields a result dictionary. -/
def coord_convert (lat lon : ℚ) (from_coord to_coord : String)
    (r : Except String ConvResponse) : Option ConvResult :=
  match r with
  | Except.error _ => none
  | Except.ok resp =>
    let c := resp.coordinate.getD ⟨none, none⟩
    some ⟨c.lat, c.lon, from_coord, to_coord⟩

/-- Reformulation of the body of the chart accumulation loop, used in proofs:
the point kept for one raw entry, if any. -/
def validPoint (item : RawCandle) : Option ChartPoint :=
  match parsePoint item with
  | none => none
  | some p => if p.date ≠ "" ∧ 0 < p.close then some p else none

/-! ### Helper lemmas -/

theorem rateLimit_count_le (maxReq : Nat) (hmax : 1 ≤ maxReq) (s : RateState) (now : ℚ)
    (h : s.request_count ≤ maxReq) :
    (rateLimit maxReq s now).state.request_count ≤ maxReq := by
  unfold rateLimit
  by_cases h1 : now - s.last_request_time ≥ 1
  · simp only [h1, if_pos]
    have h0 : ¬ ((0 : Nat) ≥ maxReq) := by omega
    simp [h0]
    omega
  · simp only [h1, if_neg, if_false]
    by_cases h2 : s.request_count ≥ maxReq
    · have h3 : 1 - (now - s.last_request_time) > 0 := by
        push_neg at h1
        linarith
      simp [h2, h3]
      omega
    · simp [h2]
      omega

theorem runRateTrace_count_le (maxReq : Nat) (hmax : 1 ≤ maxReq) (times : List ℚ) :
    ∀ s : RateState, s.request_count ≤ maxReq →
      (runRateTrace maxReq s times).1.request_count ≤ maxReq := by
  induction times with
  | nil => intro s h; simpa [runRateTrace] using h
  | cons t ts ih =>
      intro s h
      simpa [runRateTrace] using ih _ (rateLimit_count_le maxReq hmax s t h)

theorem rateLimit_blocks (maxReq : Nat) (s : RateState) (now : ℚ)
    (hwin : now - s.last_request_time < 1) (hfull : maxReq ≤ s.request_count) :
    rateLimit maxReq s now
      = ⟨⟨1, s.last_request_time + 1⟩, true, s.last_request_time + 1⟩ := by
  have h1 : ¬ (now - s.last_request_time ≥ 1) := by linarith
  have h3 : 1 - (now - s.last_request_time) > 0 := by linarith
  have h4 : now + (1 - (now - s.last_request_time)) = s.last_request_time + 1 := by ring
  simp [rateLimit, h1, hfull, h3, h4]

theorem makeRequest_replicate {α : Type} (p : α) (n : Nat) :
    makeRequest (List.replicate n (HttpOutcome.failure 429) ++ [HttpOutcome.success p])
      = (2 * n, Except.ok p) := by
  induction n with
  | zero => simp [makeRequest]
  | succ k ih =>
      rw [List.replicate_succ, List.cons_append]
      show ((makeRequest (List.replicate k (HttpOutcome.failure 429) ++ [HttpOutcome.success p])).1 + 2,
            (makeRequest (List.replicate k (HttpOutcome.failure 429) ++ [HttpOutcome.success p])).2)
          = (2 * (k + 1), Except.ok p)
      rw [ih]
      simp only [Prod.mk.injEq]
      exact ⟨by omega, trivial⟩

theorem tokenStep_cached (st : Option String) (o : AuthOutcome) (h : isTruthy st = true) :
    tokenStep st o = (st, false, Except.ok (st.getD "")) := by
  simp [tokenStep, h]

theorem tokenTrace_cached (st : Option String) (h : isTruthy st = true)
    (os : List AuthOutcome) :
    tokenTrace st os = (st, List.replicate os.length (false, Except.ok (st.getD ""))) := by
  induction os with
  | nil => simp [tokenTrace]
  | cons o os ih =>
      simp [tokenTrace, tokenStep_cached st o h, ih, List.replicate_succ]

theorem successCallCount_replicate_cached (n : Nat) (v : String) :
    successCallCount (List.replicate n ((false : Bool), Except.ok v)) = 0 := by
  induction n with
  | zero => rfl
  | succ k ih =>
      simpa [successCallCount, List.replicate_succ, List.filter_cons] using ih

theorem successCallCount_le_one (os : List AuthOutcome) :
    ∀ st : Option String, successCallCount (tokenTrace st os).2 ≤ 1 := by
  induction os with
  | nil => intro st; simp [tokenTrace, successCallCount]
  | cons o os ih =>
      intro st
      by_cases h : isTruthy st = true
      · rw [tokenTrace_cached st h]
        exact le_trans (le_of_eq (successCallCount_replicate_cached _ _)) (Nat.zero_le 1)
      · cases o with
        | transportError =>
            have hs : tokenStep st AuthOutcome.transportError = (st, true, Except.error ()) := by
              simp [tokenStep, h]
            simpa [tokenTrace, hs, successCallCount, List.filter_cons, isOkResult] using ih st
        | response tok =>
            by_cases ht : isTruthy tok = true
            · have hs : tokenStep st (AuthOutcome.response tok) = (tok, true, Except.ok (tok.getD "")) := by
                simp [tokenStep, h, ht]
              have hT : tokenTrace st (AuthOutcome.response tok :: os)
                  = ((tokenTrace tok os).1, (true, Except.ok (tok.getD "")) :: (tokenTrace tok os).2) := by
                simp [tokenTrace, hs]
              rw [hT, tokenTrace_cached tok ht]
              have h0 : (List.filter (fun r => r.1 && isOkResult r.2)
                  (List.replicate os.length ((false : Bool), Except.ok (tok.getD "")))).length = 0 := by
                simpa [successCallCount] using successCallCount_replicate_cached os.length (tok.getD "")
              simp [successCallCount, List.filter_cons, isOkResult, h0]
            · have hs : tokenStep st (AuthOutcome.response tok) = (tok, true, Except.error ()) := by
                simp [tokenStep, h, ht]
              simpa [tokenTrace, hs, successCallCount, List.filter_cons, isOkResult] using ih tok

theorem validPoint_eq_some (a : RawCandle) (p : ChartPoint) :
    validPoint a = some p ↔ parsePoint a = some p ∧ p.date ≠ "" ∧ 0 < p.close := by
  unfold validPoint
  cases hp : parsePoint a with
  | none => simp
  | some q =>
      show (if q.date ≠ "" ∧ 0 < q.close then some q else none) = some p ↔
          some q = some p ∧ p.date ≠ "" ∧ 0 < p.close
      by_cases hv : q.date ≠ "" ∧ 0 < q.close
      · rw [if_pos hv]
        simp only [Option.some.injEq]
        constructor
        · rintro rfl; exact ⟨rfl, hv⟩
        · rintro ⟨hq, _⟩; exact hq
      · rw [if_neg hv]
        constructor
        · rintro h; cases h
        · rintro ⟨hq, hd, hc⟩
          cases hq
          exact absurd ⟨hd, hc⟩ hv

theorem chartDataLoop_eq_filterMap (m : List RawCandle) :
    chartDataLoop m = m.filterMap validPoint := by
  induction m with
  | nil => rfl
  | cons item rest ih =>
      cases hp : parsePoint item with
      | none => simp [chartDataLoop, validPoint, hp, ih, List.filterMap_cons]
      | some q =>
          by_cases hv : q.date ≠ "" ∧ 0 < q.close
          · simp [chartDataLoop, validPoint, hp, hv, ih, List.filterMap_cons]
          · simp [chartDataLoop, validPoint, hp, hv, ih, List.filterMap_cons]

theorem chartDataLoop_sublist (m : List RawCandle) :
    List.Sublist (chartDataLoop m) (m.filterMap parsePoint) := by
  induction m with
  | nil => simp [chartDataLoop]
  | cons item rest ih =>
      cases hp : parsePoint item with
      | none => simpa [chartDataLoop, hp, List.filterMap_cons] using ih
      | some q =>
          by_cases hv : q.date ≠ "" ∧ 0 < q.close
          · simpa [chartDataLoop, hp, hv, List.filterMap_cons] using ih.cons₂ q
          · simpa [chartDataLoop, hp, hv, List.filterMap_cons] using ih.cons q

theorem chartDataLoop_length_le (m : List RawCandle) :
    (chartDataLoop m).length ≤ m.length := by
  rw [chartDataLoop_eq_filterMap]
  exact List.length_filterMap_le _ _

/-! ### Claim theorems -/

/-- C1 (amended): the in-window request counter of `_rate_limit` never
exceeds the configured ceiling: whenever the counter has reached the ceiling
and less than one second has elapsed since the window start, the call sleeps
for the exact remainder of the window (dispatching at `windowStart + 1`) and
resets the counter before incrementing; the counter bound is preserved along
every trace of calls. (The original claim's consequence that at most the
ceiling of requests is dispatched within ANY 1-second interval fails — see
the counterexample — because the limiter is a fixed-window counter: an
interval straddling a window reset can see up to twice the ceiling.) -/
theorem C1_rate_limiter (maxReq : Nat) (s s0 : RateState) (now : ℚ) (times : List ℚ)
    (hmax : 1 ≤ maxReq) :
    max_requests_per_second = 15
    ∧ (s.request_count ≤ maxReq → (rateLimit maxReq s now).state.request_count ≤ maxReq)
    ∧ (now - s.last_request_time < 1 → maxReq ≤ s.request_count →
        rateLimit maxReq s now = ⟨⟨1, s.last_request_time + 1⟩, true, s.last_request_time + 1⟩)
    ∧ (s0.request_count ≤ maxReq →
        (runRateTrace maxReq s0 times).1.request_count ≤ maxReq) :=
  ⟨rfl, fun h => rateLimit_count_le maxReq hmax s now h,
   fun hw hf => rateLimit_blocks maxReq s now hw hf,
   fun h => runRateTrace_count_le maxReq hmax times s0 h⟩

/-- Witness for C1: the amended statement evaluated on a full window at
`now = 1/2` and on a concrete two-call trace. -/
theorem C1_rate_limiter_witness :
    max_requests_per_second = 15
    ∧ (rateLimit 15 ⟨15, 0⟩ (1/2)).state.request_count ≤ 15
    ∧ rateLimit 15 ⟨15, 0⟩ (1/2) = ⟨⟨1, (0 : ℚ) + 1⟩, true, (0 : ℚ) + 1⟩
    ∧ (runRateTrace 15 ⟨0, 0⟩ [0, 1/4]).1.request_count ≤ 15 := by
  have h := C1_rate_limiter 15 ⟨15, 0⟩ ⟨0, 0⟩ (1/2) [0, 1/4] (by norm_num)
  exact ⟨h.1, h.2.1 (by norm_num), h.2.2.1 (by norm_num) (by norm_num), h.2.2.2 (by norm_num)⟩

/-- Counterexample to C1 as stated: starting from a freshly constructed
client (counter 0, window start 0), fifteen calls at time `1/2` and one call
at time `1` all dispatch without any sleep — sixteen requests inside the
1-second interval `[1/2, 3/2)`, one more than the ceiling 15, because the
sixteenth call resets the fixed window instead of blocking. -/
theorem C1_counterexample :
    (runRateTrace max_requests_per_second ⟨0, 0⟩
        (List.replicate 15 (1/2 : ℚ) ++ [1])).2
      = List.replicate 15 ((1/2 : ℚ), false) ++ [((1 : ℚ), false)]
    ∧ max_requests_per_second <
        (runRateTrace max_requests_per_second ⟨0, 0⟩
          (List.replicate 15 (1/2 : ℚ) ++ [1])).2.length := by
  constructor
  · norm_num [runRateTrace, rateLimit, max_requests_per_second, List.replicate]
  · norm_num [runRateTrace, rateLimit, max_requests_per_second, List.replicate]

/-- C2 (amended): on an HTTP 429 the dispatcher sleeps a fixed 2-second delay
and recursively re-enters the entire send with NO bound on the number of
retries — after `n` consecutive 429 responses followed by a success it
returns the payload having slept `2 * n` seconds, and it never surfaces a
rate-limit error of its own; a non-429 transport error propagates immediately
without retry; a transport success returns the parsed body immediately. -/
theorem C2_retry (α : Type) (p : α) (rest : List (HttpOutcome α)) (s n : Nat) :
    makeRequest (HttpOutcome.success p :: rest) = (0, Except.ok p)
    ∧ (s ≠ 429 →
        makeRequest (HttpOutcome.failure s :: rest) = (0, Except.error (DispatchError.network s)))
    ∧ makeRequest (HttpOutcome.failure 429 :: rest)
        = ((makeRequest rest).1 + 2, (makeRequest rest).2)
    ∧ makeRequest (List.replicate n (HttpOutcome.failure 429) ++ [HttpOutcome.success p])
        = (2 * n, Except.ok p) := by
  refine ⟨rfl, fun hs => ?_, ?_, makeRequest_replicate p n⟩
  · simp [makeRequest, hs]
  · rfl

/-- Witness for C2: the amended statement at concrete oracles. -/
theorem C2_retry_witness :
    makeRequest (HttpOutcome.success (0 : Nat) :: []) = (0, Except.ok 0)
    ∧ makeRequest (HttpOutcome.failure 500 :: ([] : List (HttpOutcome Nat)))
        = (0, Except.error (DispatchError.network 500))
    ∧ makeRequest (HttpOutcome.failure 429 :: ([] : List (HttpOutcome Nat)))
        = ((makeRequest ([] : List (HttpOutcome Nat))).1 + 2,
           (makeRequest ([] : List (HttpOutcome Nat))).2)
    ∧ makeRequest (List.replicate 2 (HttpOutcome.failure 429) ++ [HttpOutcome.success (0 : Nat)])
        = (2 * 2, Except.ok 0) := by
  have h := C2_retry Nat 0 [] 500 2
  exact ⟨h.1, h.2.1 (by decide), h.2.2.1, h.2.2.2⟩

/-- Counterexample to C2 as stated: after a 429 the dispatcher retries, and
when the retry is ALSO answered 429 it does not propagate a rate-limit error
— it sleeps again and retries a second time, here succeeding with total delay
4. The retry is therefore not bounded at one attempt. -/
theorem C2_counterexample :
    makeRequest [HttpOutcome.failure 429, HttpOutcome.failure 429, HttpOutcome.success (7 : Nat)]
      = (4, Except.ok 7) := rfl

/-- C3 (amended): once the cached token of `_get_access_token` is truthy
(non-empty), every call returns the cached value with no network call and the
cache is never invalidated, refreshed or replaced for the remaining trace;
across ANY trace of calls at most one network call returns a usable token.
(The original unconditional "at most one network call" fails when an auth
attempt errors: each failing call performs its own network call — see the
counterexample.) -/
theorem C3_token_caching (st : Option String) (o : AuthOutcome) (os : List AuthOutcome) :
    (isTruthy st = true → tokenStep st o = (st, false, Except.ok (st.getD "")))
    ∧ (isTruthy st = true →
        tokenTrace st os = (st, List.replicate os.length (false, Except.ok (st.getD ""))))
    ∧ successCallCount (tokenTrace st os).2 ≤ 1 :=
  ⟨fun h => tokenStep_cached st o h,
   fun h => tokenTrace_cached st h os,
   successCallCount_le_one os st⟩

/-- Witness for C3: a cached token `"T"` over a concrete trace. -/
theorem C3_token_caching_witness :
    tokenStep (some "T") (AuthOutcome.response (some "U"))
        = (some "T", false, Except.ok "T")
    ∧ tokenTrace (some "T") [AuthOutcome.transportError]
        = (some "T", [(false, Except.ok "T")])
    ∧ successCallCount (tokenTrace (some "T") [AuthOutcome.transportError]).2 ≤ 1 := by
  have h := C3_token_caching (some "T") (AuthOutcome.response (some "U"))
    [AuthOutcome.transportError]
  exact ⟨h.1 (by decide), h.2.1 (by decide), h.2.2⟩

/-- Counterexample to C3 as stated: when the first `getToken` call hits a
transport error and the second succeeds, the instance performs two
auth-endpoint network calls, not at most one. -/
theorem C3_counterexample :
    ¬ (networkCallCount (tokenTrace none
        [AuthOutcome.transportError, AuthOutcome.response (some "T")]).2 ≤ 1) := by
  decide

/-- C4 (amended): the chart range resolver is a pure function of its inputs;
explicit start and end dates are used unmodified; a missing end date becomes
`today`; a missing start date becomes `today - (count * unitDays + 10)` where
`unitDays` maps D to 1, W to 7, M to 30 and Y to 365 — computed from TODAY,
not from the effective end date (the two coincide only when the end date is
also unset, as in the spec's example: D, count 30 gives start = today - 40).
(The original claim's `start = end - ...` fails when an explicit end is
combined with an unset start — see the counterexample.) -/
theorem C4_chart_range (today sd ed : Int) (sd? ed? : Option Int) (count : Nat)
    (period : String) :
    resolveRange today period count (some sd) (some ed) = (sd, ed)
    ∧ (resolveRange today period count sd? none).2 = today
    ∧ (resolveRange today "D" count none ed?).1 = today - ((count : Int) * 1 + 10)
    ∧ (resolveRange today "W" count none ed?).1 = today - ((count : Int) * 7 + 10)
    ∧ (resolveRange today "M" count none ed?).1 = today - ((count : Int) * 30 + 10)
    ∧ (resolveRange today "Y" count none ed?).1 = today - ((count : Int) * 365 + 10)
    ∧ resolveRange today "D" 30 none none = (today - 40, today) := by
  refine ⟨rfl, ?_, by simp [resolveRange, daysBack], by simp [resolveRange, daysBack],
    by simp [resolveRange, daysBack], by simp [resolveRange, daysBack],
    by simp [resolveRange, daysBack]⟩
  cases sd? <;> rfl

/-- Counterexample to C4 as stated: with `today = 0`, granularity D,
`count = 30`, an explicit end date 100 days in the past and an unset start,
the code computes `start = today - 40 = -40`, not `end - 40 = -140`. -/
theorem C4_counterexample :
    (resolveRange 0 "D" 30 none (some (-100))).1 = -40
    ∧ (resolveRange 0 "D" 30 none (some (-100))).1 ≠ -100 - 40 := by
  constructor <;> decide

/-- C5 (amended): among the first `count` raw candles, a point appears in the
normalized series if and only if all of the entry's numeric fields coerce
without raising AND its date field is non-empty AND its coerced close is
strictly positive; the provider order is preserved (the series is a sublist
of the coerced candles in order), the series length never exceeds the
requested count, and the `count` field of the chart record always equals the
number of kept points. (The original claim's "if and only if the date is
non-empty and the close is positive" fails for an entry whose other numeric
fields do not parse — see the counterexample.) -/
theorem C5_series_filtering (count : Nat) (l : List RawCandle) (p : ChartPoint)
    (symbol period : String) (resp : ChartResponse) :
    (p ∈ chartDataLoop (l.take count) ↔
      ∃ item, item ∈ l.take count ∧ parsePoint item = some p ∧ p.date ≠ "" ∧ 0 < p.close)
    ∧ (chartDataLoop (l.take count)).length ≤ count
    ∧ List.Sublist (chartDataLoop (l.take count)) ((l.take count).filterMap parsePoint)
    ∧ (stock_chart symbol period count resp).count
        = (stock_chart symbol period count resp).chart_data.length := by
  refine ⟨?_, ?_, chartDataLoop_sublist _, ?_⟩
  · rw [chartDataLoop_eq_filterMap]
    rw [List.mem_filterMap]
    constructor
    · rintro ⟨item, hi, hvp⟩
      rcases (validPoint_eq_some item p).mp hvp with ⟨h1, h2, h3⟩
      exact ⟨item, hi, h1, h2, h3⟩
    · rintro ⟨item, hi, h1, h2, h3⟩
      exact ⟨item, hi, (validPoint_eq_some item p).mpr ⟨h1, h2, h3⟩⟩
  · calc (chartDataLoop (l.take count)).length ≤ (l.take count).length :=
          chartDataLoop_length_le _
      _ ≤ count := by rw [List.length_take]; omega
  · unfold stock_chart
    by_cases h1 : resp.rt_cd ≠ some "0"
    · rw [if_pos h1]
      rfl
    · rw [if_neg h1]
      by_cases h2 : resp.output2.getD [] = []
      · rw [if_pos h2]
        rfl
      · rw [if_neg h2]

/-- Counterexample to C5 as stated: a raw candle with a non-empty date and a
close that coerces to 100 > 0, but whose volume field is the non-numeric
string "abc", is silently dropped (the coercion raises and the loop skips
the entry), so the normalized series does NOT contain a point for it. -/
theorem C5_counterexample :
    chartDataLoop ([⟨some "20240101", some "100", some "100", some "100",
        some "100", some "abc", some "0"⟩].take 30) = []
    ∧ (⟨some "20240101", some "100", some "100", some "100", some "100", some "abc",
        some "0"⟩ : RawCandle).stck_bsop_date = some "20240101"
    ∧ coerceChartField (⟨some "20240101", some "100", some "100", some "100", some "100",
        some "abc", some "0"⟩ : RawCandle).stck_clpr = some 100 := by
  refine ⟨rfl, rfl, rfl⟩

/-- C6 (confirmed): for a quote query whose transport succeeded, the result is
classified by the provider `rt_cd` status field alone: a payload with
`rt_cd ≠ "0"` raises the API error carrying the provider's `msg1` message
(exactly `"invalid symbol"` in the spec's example, embedded in the raised
text), and a payload with `rt_cd = "0"` is handed unchanged to the
normalization stage. This holds for both the domestic and the overseas quote
operation. -/
theorem C6_error_classification (symbol market exchange : String)
    (resp : KisResponse) (uresp : USResponse) :
    (resp.rt_cd ≠ some "0" → stock_price symbol market resp
        = Except.error (QuoteFailure.apiError ("API 오류: " ++ resp.msg1.getD unknownErrorMsg)))
    ∧ (resp.rt_cd = some "0" →
        stock_price symbol market resp = normalizeQuote symbol market resp.output)
    ∧ (uresp.rt_cd ≠ some "0" → us_stock_price symbol exchange uresp
        = Except.error (QuoteFailure.apiError ("API 오류: " ++ uresp.msg1.getD unknownErrorMsg)))
    ∧ (uresp.rt_cd = some "0" →
        us_stock_price symbol exchange uresp = normalizeUSQuote symbol exchange uresp.output)
    ∧ (resp.rt_cd = some "1" → resp.msg1 = some "invalid symbol" →
        stock_price symbol market resp
          = Except.error (QuoteFailure.apiError "API 오류: invalid symbol")) := by
  refine ⟨fun h => by rw [stock_price, if_pos h],
    fun h => by rw [stock_price, if_neg (by simp [h])],
    fun h => by rw [us_stock_price, if_pos h],
    fun h => by rw [us_stock_price, if_neg (by simp [h])],
    fun h1 h2 => ?_⟩
  have hne : resp.rt_cd ≠ some "0" := by rw [h1]; decide
  rw [stock_price, if_pos hne, h2]
  rfl

/-- Witness for C6: a concrete failing payload with provider status "1" and
message "invalid symbol", and a concrete succeeding payload. -/
theorem C6_error_classification_witness :
    stock_price "005930" "KOSPI"
        ⟨some "1", some "invalid symbol",
          ⟨none, none, none, none, none, none, none, none, none, none, none⟩⟩
      = Except.error (QuoteFailure.apiError "API 오류: invalid symbol")
    ∧ stock_price "005930" "KOSPI"
        ⟨some "0", none, ⟨none, none, none, none, none, none, none, none, none, none, none⟩⟩
      = normalizeQuote "005930" "KOSPI"
          ⟨none, none, none, none, none, none, none, none, none, none, none⟩
    ∧ us_stock_price "AAPL" "NASDAQ"
        ⟨some "1", some "invalid symbol",
          ⟨none, none, none, none, none, none, none, none, none, none⟩⟩
      = Except.error (QuoteFailure.apiError "API 오류: invalid symbol") := by
  have h1 := C6_error_classification "005930" "KOSPI" "NASDAQ"
    ⟨some "1", some "invalid symbol",
      ⟨none, none, none, none, none, none, none, none, none, none, none⟩⟩
    ⟨some "1", some "invalid symbol",
      ⟨none, none, none, none, none, none, none, none, none, none⟩⟩
  have h2 := C6_error_classification "005930" "KOSPI" "NASDAQ"
    ⟨some "0", none, ⟨none, none, none, none, none, none, none, none, none, none, none⟩⟩
    ⟨some "1", some "invalid symbol",
      ⟨none, none, none, none, none, none, none, none, none, none⟩⟩
  have h3 := C6_error_classification "AAPL" "KOSPI" "NASDAQ"
    ⟨some "0", none, ⟨none, none, none, none, none, none, none, none, none, none, none⟩⟩
    ⟨some "1", some "invalid symbol",
      ⟨none, none, none, none, none, none, none, none, none, none⟩⟩
  refine ⟨h1.2.2.2.2 rfl rfl, h2.2.1 rfl, ?_⟩
  have := h3.2.2.1 (by decide)
  simpa using this

/-- C7 (amended): a provider-reported business failure of the chart query
(`rt_cd ≠ "0"`), and likewise any error raised during the operation, is NOT
propagated as a raised typed error: `stock_chart` catches it and returns a
normally-completed record whose embedded `error` field carries the message
(the provider's `msg1` for a business failure, the stringified exception for
a transport failure), with `count = 0` and an empty series. -/
theorem C7_chart_error_handling (symbol period : String) (count : Nat)
    (resp : ChartResponse) (e : String) :
    (resp.rt_cd ≠ some "0" → stock_chart symbol period count resp
        = ⟨symbol, "", period, 0, [], some ("API 오류: " ++ resp.msg1.getD unknownErrorMsg)⟩)
    ∧ stock_chartRun symbol period count (Except.error e)
        = ⟨symbol, "", period, 0, [], some e⟩ :=
  ⟨fun h => by rw [stock_chart, if_pos h], rfl⟩

/-- Witness for C7: the amended statement at a concrete failing payload. -/
theorem C7_chart_error_handling_witness :
    stock_chart "005930" "D" 30 ⟨some "1", some "invalid symbol", none, none⟩
      = ⟨"005930", "", "D", 0, [], some "API 오류: invalid symbol"⟩
    ∧ stock_chartRun "005930" "D" 30 (Except.error "timeout")
      = ⟨"005930", "", "D", 0, [], some "timeout"⟩ := by
  have h := C7_chart_error_handling "005930" "D" 30
    ⟨some "1", some "invalid symbol", none, none⟩ "timeout"
  exact ⟨by simpa using h.1 (by decide), h.2⟩

/-- Counterexample to C7 as stated: on a payload with provider status "1" and
message "invalid symbol" the chart operation completes normally and returns a
record with the embedded error field — it does not raise. -/
theorem C7_counterexample :
    (stock_chart "005930" "D" 30 ⟨some "1", some "invalid symbol", none, none⟩).error
        = some "API 오류: invalid symbol"
    ∧ (stock_chart "005930" "D" 30 ⟨some "1", some "invalid symbol", none, none⟩).count = 0
    ∧ (stock_chart "005930" "D" 30
        ⟨some "1", some "invalid symbol", none, none⟩).chart_data = [] := by
  refine ⟨rfl, rfl, rfl⟩

/-- C8 (amended): normalization is total over MISSING fields — a missing
numeric field defaults to zero and a missing string field to the empty string
— and for series data a point whose coercion raises is silently skipped; but
for the single-object quote a monetary or volume field holding a non-numeric
string makes the operation raise the coercion `ValueError` (it is NOT treated
as zero and the operation does not succeed). -/
theorem C8_normalization (symbol market : String) (resp : KisResponse)
    (item : RawCandle) (rest : List RawCandle) :
    normalizeQuote symbol market ⟨none, none, none, none, none, none, none, none, none, none, none⟩
      = Except.ok ⟨symbol, "", 0, 0, 0, 0, 0, 0, 0, 0, 0, 0, market⟩
    ∧ (parsePoint item = none → chartDataLoop (item :: rest) = chartDataLoop rest)
    ∧ (resp.rt_cd = some "0" → coerceIntField resp.output.stck_prpr = none →
        stock_price symbol market resp = Except.error QuoteFailure.coercionError) := by
  refine ⟨rfl, fun h => ?_, fun h1 h2 => ?_⟩
  · show (match parsePoint item with
      | none => chartDataLoop rest
      | some p => if p.date ≠ "" ∧ 0 < p.close then p :: chartDataLoop rest
                  else chartDataLoop rest) = chartDataLoop rest
    rw [h]
  · rw [stock_price, if_neg (by simp [h1])]
    unfold normalizeQuote normalizeQuote?
    rw [h2]
    rfl

/-- Witness for C8: the amended statement at the concrete malformed inputs
(series candle with volume "abc", quote payload with price "abc"). -/
theorem C8_normalization_witness :
    normalizeQuote "005930" "KOSPI"
        ⟨none, none, none, none, none, none, none, none, none, none, none⟩
      = Except.ok ⟨"005930", "", 0, 0, 0, 0, 0, 0, 0, 0, 0, 0, "KOSPI"⟩
    ∧ chartDataLoop (⟨some "20240101", some "100", some "100", some "100", some "100",
        some "abc", some "0"⟩ :: [])
      = chartDataLoop []
    ∧ stock_price "005930" "KOSPI"
        ⟨some "0", none, ⟨none, some "abc", none, none, none, none, none, none, none, none, none⟩⟩
      = Except.error QuoteFailure.coercionError := by
  have h := C8_normalization "005930" "KOSPI"
    ⟨some "0", none, ⟨none, some "abc", none, none, none, none, none, none, none, none, none⟩⟩
    ⟨some "20240101", some "100", some "100", some "100", some "100", some "abc", some "0"⟩
    []
  exact ⟨h.1, h.2.1 rfl, h.2.2 rfl rfl⟩

/-- Counterexample to C8 as stated: a quote payload whose price field
`stck_prpr` is the non-numeric string "abc" makes `stock_price` raise the
coercion `ValueError` instead of succeeding with the field treated as zero. -/
theorem C8_counterexample :
    stock_price "005930" "KOSPI"
        ⟨some "0", none, ⟨none, some "abc", none, none, none, none, none, none, none, none, none⟩⟩
      = Except.error QuoteFailure.coercionError := rfl

/-- C9 (amended): the category-code table of `category_search` passes an
unknown key through unchanged (`.get(category, category)`), but the
exchange-name table of `us_stock_price` does NOT pass unknown keys through:
it substitutes the catch-all code "NAS" (`.get(exchange, "NAS")`). Known keys
map to their table entries. -/
theorem C9_code_tables (c e : String) :
    (List.lookup c category_names = none → categoryNameLookup c = c)
    ∧ (List.lookup e exchange_codes = none → excdLookup e = "NAS")
    ∧ categoryNameLookup "CE7" = "카페"
    ∧ excdLookup "NASDAQ" = "NAS" := by
  refine ⟨fun h => ?_, fun h => ?_, rfl, rfl⟩
  · rw [categoryNameLookup, h]
    rfl
  · rw [excdLookup, h]
    rfl

/-- Witness for C9: unknown keys "ZZZ" and "LSE". -/
theorem C9_code_tables_witness :
    categoryNameLookup "ZZZ" = "ZZZ"
    ∧ excdLookup "LSE" = "NAS"
    ∧ categoryNameLookup "CE7" = "카페"
    ∧ excdLookup "NASDAQ" = "NAS" := by
  have h := C9_code_tables "ZZZ" "LSE"
  exact ⟨h.1 rfl, h.2.1 rfl, h.2.2.1, h.2.2.2⟩

/-- Counterexample to C9 as stated: the exchange table maps the unknown input
"LSE" to the catch-all code "NAS" instead of passing it through unchanged. -/
theorem C9_counterexample :
    excdLookup "LSE" = "NAS" ∧ excdLookup "LSE" ≠ "LSE" := by
  refine ⟨rfl, by decide⟩

/-- C10 (amended): `coord_convert` never raises — a transport failure of
any kind is caught and turned into `None`, and a transport success always
yields a result dictionary (the modelled function is total). The quote
operation, by contrast, re-raises its transport failures to the caller — but
this contrast does NOT extend to every other operation in the repository:
the chart operation likewise catches every failure, returning a
normally-completed record with an embedded error message instead of `None`
(see the counterexample refuting the original universal contrast). -/
theorem C10_coord_convert_never_raises (lat lon : ℚ) (fc tc e : String)
    (resp : ConvResponse) (symbol market period : String) (count : Nat)
    (de : DispatchError) (ce : String) :
    coord_convert lat lon fc tc (Except.error e) = none
    ∧ coord_convert lat lon fc tc (Except.ok resp)
        = some ⟨(resp.coordinate.getD ⟨none, none⟩).lat,
                (resp.coordinate.getD ⟨none, none⟩).lon, fc, tc⟩
    ∧ stock_priceRun symbol market (Except.error de) = Except.error (OpError.transport de)
    ∧ stock_chartRun symbol period count (Except.error ce)
        = ⟨symbol, "", period, 0, [], some ce⟩ :=
  ⟨rfl, rfl, rfl, rfl⟩

/-- Counterexample to C10 as stated: the claim's contrast clause "unlike
every other operation in the repository, which re-raises its failures" is
false — the chart operation also catches every failure of its own and
completes normally, returning a record that embeds the stringified exception
instead of re-raising it to the caller. -/
theorem C10_counterexample :
    stock_chartRun "066570" "D" 5 (Except.error "connection error")
      = ⟨"066570", "", "D", 0, [], some "connection error"⟩ := rfl
